import Mathlib

/-!
Shallow embedding of the Waste Management Marketplace backend
(`src/backend/app/routes/*.py`) and proofs about its operations.

The relational store is modelled as lists of records; each route handler
becomes a pure function from the store (and its parsed request data) to a
pair of the resulting store and an HTTP-style outcome.  Handlers that fail
return the store unchanged, matching the rollback-on-error
behaviour (the SQLAlchemy session is only committed on the success path and
discarded otherwise).
-/

set_option maxHeartbeats 1000000

namespace Marketplace

/-- JSON values as they arrive in request bodies (only the shapes the
routes inspect: strings, numbers, booleans, null). -/
inductive JVal : Type
  | jstr (s : String)
  | jnum (n : Int)
  | jbool (b : Bool)
  | jnull
deriving Repr, DecidableEq

/-- Python `str.strip()`: drop leading and trailing whitespace.  (Defined
by structural recursion over the character list so it evaluates.) -/
def pyStrip (s : String) : String :=
  String.mk
    (((s.data.dropWhile Char.isWhitespace).reverse.dropWhile
        Char.isWhitespace).reverse)

/-- The case-folding applied by `str.lower()` / SQL `ILIKE`.  (Defined by
structural recursion over the character list so it evaluates.) -/
def lowerStr (s : String) : String := String.mk (s.data.map Char.toLower)

/-- Python truthiness of a JSON value, as used by `if not email or ...`. -/
def JVal.truthy : JVal → Bool
  | .jstr s => !(s = "")
  | .jnum n => !(n = 0)
  | .jbool b => b
  | .jnull => false

/-- `isinstance(v, str)` projection: the string when the value is one. -/
def JVal.asStr? : JVal → Option String
  | .jstr s => some s
  | _ => none

/-- `app/models.py` User row (credentials and profile). -/
structure User : Type where
  id : Nat
  email : String
  username : String
  passwordHash : String
  profileImage : Option String
deriving Repr, DecidableEq

/-- `app/models.py` Product row. `createdAt` is the creation timestamp used
by `order_by(Product.created_at.desc())`. -/
structure Product : Type where
  id : Nat
  title : String
  description : String
  category : String
  price : ℚ
  sellerId : Nat
  imageFilenames : List String
  createdAt : Nat
deriving Repr, DecidableEq

/-- `app/models.py` CartItem row: a (user, product) pair with a quantity. -/
structure CartItem : Type where
  userId : Nat
  productId : Nat
  quantity : Int
deriving Repr, DecidableEq

/-- `app/models.py` Purchase row. -/
structure Purchase : Type where
  id : Nat
  userId : Nat
  totalAmount : ℚ
  purchaseDate : Nat
deriving Repr, DecidableEq

/-- `app/models.py` PurchaseItem row: the snapshot taken at checkout. -/
structure PurchaseItem : Type where
  purchaseId : Nat
  productId : Nat
  quantity : Int
  priceAtPurchase : ℚ
  productTitle : String
  productImageFilename : Option String
deriving Repr, DecidableEq

/-- The relational store: one list per table, plus autoincrement counters
and a clock supplying `created_at` / `purchase_date` timestamps.  The
wishlist is the many-to-many association table as (userId, productId)
pairs. -/
structure DB : Type where
  users : List User
  products : List Product
  cartItems : List CartItem
  purchases : List Purchase
  purchaseItems : List PurchaseItem
  wishlist : List (Nat × Nat)
  nextUserId : Nat
  nextProductId : Nat
  nextPurchaseId : Nat
  clock : Nat
deriving Repr, DecidableEq

/-- The error taxonomy of the route handlers (HTTP status classes). -/
inductive ApiError : Type
  | validation       -- 400
  | unauthorized     -- 401
  | forbidden        -- 403
  | notFound         -- 404
  | conflict         -- 409
  | unsupportedMedia -- 415
  | internal         -- 500
deriving Repr, DecidableEq

/-- `User.query.get(uid)`: primary-key lookup. -/
def findUser (db : DB) (uid : Nat) : Option User :=
  db.users.find? (fun u => u.id == uid)

/-- `Product.query.get(pid)`: primary-key lookup. -/
def findProduct (db : DB) (pid : Nat) : Option Product :=
  db.products.find? (fun p => p.id == pid)

/-- `CartItem.query.filter_by(user_id=uid, product_id=pid).first()`. -/
def findCartItem (db : DB) (uid pid : Nat) : Option CartItem :=
  db.cartItems.find? (fun c => c.userId == uid && c.productId == pid)

/-- `CartItem.query.filter_by(user_id=uid).all()`. -/
def userCart (db : DB) (uid : Nat) : List CartItem :=
  db.cartItems.filter (fun c => c.userId == uid)

/-- Mutate the first row matching a predicate (an ORM `first()` fetch
followed by attribute assignment and commit). -/
def updateFirst (p : α → Bool) (f : α → α) : List α → List α
  | [] => []
  | a :: t => if p a then f a :: t else a :: updateFirst p f t

/-- Delete the first row matching a predicate (`db.session.delete` of a
`first()` fetch). -/
def removeFirst (p : α → Bool) : List α → List α
  | [] => []
  | a :: t => if p a then t else a :: removeFirst p t

/-! ### Auth routes (`auth_routes.py`) -/

/-- Parsed JSON body of `POST /register`. -/
structure RegisterData : Type where
  email : Option JVal
  username : Option JVal
  password : Option JVal
  -- `profileImage` is stored as-is when present; the route expects a URL
  -- string or nothing, so it is modelled as an optional string.
  profileImage : Option String
deriving Repr, DecidableEq

/-- Token pair issued on success; token minting itself is an external
primitive (flask_jwt_extended), modelled as tagging the identity. -/
structure AuthTokens : Type where
  accessToken : String
  refreshToken : String
deriving Repr, DecidableEq

def makeTokens (uid : Nat) : AuthTokens :=
  ⟨"access:" ++ toString uid, "refresh:" ++ toString uid⟩

/-- Password hashing is an external primitive (bcrypt), modelled as an
injective tagging of the password. -/
def hashPassword (pw : String) : String := "bcrypt:" ++ pw

/-- `register` (`auth_routes.py:9-55`): validates presence, truthiness,
types and password length, rejects duplicate email or username with
Conflict, then inserts the user and issues the token pair. -/
def register (db : DB) (data : Option RegisterData) :
    DB × Except ApiError (AuthTokens × User) :=
  match data with
  | none => (db, .error .validation)
  | some d =>
    match d.email, d.username, d.password with
    | some e, some u, some p =>
      if !(e.truthy && u.truthy && p.truthy) then (db, .error .validation)
      else
        match e.asStr?, u.asStr?, p.asStr? with
        | some es, some us, some ps =>
          if ps.length < 6 then (db, .error .validation)
          else if db.users.any (fun x => x.email == es) then (db, .error .conflict)
          else if db.users.any (fun x => x.username == us) then (db, .error .conflict)
          else
            let newUser : User :=
              ⟨db.nextUserId, es, us, hashPassword ps, d.profileImage⟩
            ({ db with users := db.users ++ [newUser],
                       nextUserId := db.nextUserId + 1 },
             .ok (makeTokens newUser.id, newUser))
        | _, _, _ => (db, .error .validation)
    | _, _, _ => (db, .error .validation)

/-- `GET /me` (`auth_routes.py:97-109`). -/
def get_me (db : DB) (uid : Nat) : Except ApiError User :=
  match findUser db uid with
  | none => .error .notFound
  | some u => .ok u

/-- Parsed JSON body of `PUT /profile`; `none` means the key is absent,
`some .jnull` that it is present with value `null`. -/
structure ProfileData : Type where
  username : Option JVal
  profileImage : Option JVal
deriving Repr, DecidableEq

/-- The username-key block of `update_profile`
(`auth_routes.py:129-135`): non-string or blank-after-strip is Validation,
a raw-string collision with any stored username (except the own, unchanged, name of the user) is Conflict, otherwise the stripped name is adopted. -/
def usernameStep (db : DB) (u : User) (d : ProfileData) :
    Except ApiError String :=
  match d.username with
  | none => .ok u.username
  | some v =>
    match v.asStr? with
    | none => .error .validation
    | some s =>
      if pyStrip s = "" then .error .validation
      else if s ≠ u.username && db.users.any (fun x => x.username == s) then
        .error .conflict
      else .ok (pyStrip s)

/-- The profileImage-key block of `update_profile`
(`auth_routes.py:139-142`): present non-null non-string is Validation,
otherwise the value is stored as-is. -/
def imageStep (u : User) (d : ProfileData) : Except ApiError (Option String) :=
  match d.profileImage with
  | none => .ok u.profileImage
  | some .jnull => .ok none
  | some (.jstr s) => .ok (some s)
  | some _ => .error .validation

/-- `update_profile` (`auth_routes.py:111-151`). -/
def update_profile (db : DB) (uid : Nat) (data : Option ProfileData) :
    DB × Except ApiError User :=
  match findUser db uid with
  | none => (db, .error .notFound)
  | some u =>
    match data with
    | none => (db, .error .validation)
    | some d =>
      match usernameStep db u d with
      | .error e => (db, .error e)
      | .ok un =>
        match imageStep u d with
        | .error e => (db, .error e)
        | .ok img =>
          let u' : User := { u with username := un, profileImage := img }
          ({ db with users := updateFirst (fun x => x.id == uid) (fun _ => u') db.users },
           .ok u')

/-! ### Product routes (`product_routes.py`) -/

/-- Parsed multipart form of `POST /products`.  A `none` field is missing,
blank, or (for price) unparseable — all rejected alike with Validation.
`images` carries the filenames the external storage primitive returned for
the uploaded files (`save_files_from_request`). -/
structure ProductForm : Type where
  title : Option String
  description : Option String
  category : Option String
  price : Option ℚ
  images : List String
deriving Repr, DecidableEq

/-- `create_product` (`product_routes.py:54-110`). -/
def create_product (db : DB) (uid : Nat) (isMultipart : Bool)
    (form : ProductForm) : DB × Except ApiError Product :=
  match findUser db uid with
  | none => (db, .error .notFound)
  | some _ =>
    if !isMultipart then (db, .error .unsupportedMedia)
    else
      match form.title, form.description, form.category, form.price with
      | some t, some d, some c, some pr =>
        if pyStrip t = "" || pyStrip d = "" || pyStrip c = "" then (db, .error .validation)
        else if pr ≤ 0 then (db, .error .validation)
        else
          let p : Product :=
            ⟨db.nextProductId, pyStrip t, pyStrip d, pyStrip c, pr, uid, form.images, db.clock⟩
          ({ db with products := db.products ++ [p],
                     nextProductId := db.nextProductId + 1 },
           .ok p)
      | _, _, _, _ => (db, .error .validation)

/-- Parsed multipart form of `PUT /products/{id}`.  `priceProvided` is
the price-key presence flag in the form; when set, `price` is the parse result (none on
parse failure).  `keepFilenames` is the filename list extracted from
`existingImages`; `newImages` the filenames returned for new uploads. -/
structure ProductUpdateForm : Type where
  title : Option String
  description : Option String
  category : Option String
  priceProvided : Bool
  price : Option ℚ
  keepFilenames : List String
  newImages : List String
deriving Repr, DecidableEq

/-- `update_product` (`product_routes.py:112-197`).  Field mutations only
become visible on the successful commit; an error path leaves the store
unchanged (session rolled back / discarded). -/
def update_product (db : DB) (uid pid : Nat) (isMultipart : Bool)
    (f : ProductUpdateForm) : DB × Except ApiError Product :=
  match findProduct db pid with
  | none => (db, .error .notFound)
  | some p =>
    if p.sellerId ≠ uid then (db, .error .forbidden)
    else if !isMultipart then (db, .error .unsupportedMedia)
    else
      let priceRes : Except ApiError ℚ :=
        if f.priceProvided then
          match f.price with
          | none => .error .validation
          | some pr => if pr ≤ 0 then .error .validation else .ok pr
        else .ok p.price
      match priceRes with
      | .error e => (db, .error e)
      | .ok pr =>
        let p' : Product :=
          { p with
            title := match f.title with | some s => pyStrip s | none => p.title,
            description := match f.description with | some s => pyStrip s | none => p.description,
            category := match f.category with | some s => pyStrip s | none => p.category,
            price := pr,
            imageFilenames := f.keepFilenames ++ f.newImages }
        ({ db with products := updateFirst (fun q => q.id == pid) (fun _ => p') db.products },
         .ok p')

/-- `delete_product` (`product_routes.py:228-265`): removes the product
row (image-file cleanup is an external side effect; association-table
wishlist rows are removed with the product, dangling cart rows remain, as
the checkout guard anticipates). -/
def delete_product (db : DB) (uid pid : Nat) : DB × Except ApiError Unit :=
  match findProduct db pid with
  | none => (db, .error .notFound)
  | some p =>
    if p.sellerId ≠ uid then (db, .error .forbidden)
    else
      ({ db with products := removeFirst (fun q => q.id == pid) db.products,
                 wishlist := db.wishlist.filter (fun w => !(w.2 == pid)) },
       .ok ())

/-! ### Cart routes (`cart_routes.py`) -/

/-- `GET /cart` (`cart_routes.py:9-27`). -/
def get_cart_items (db : DB) (uid : Nat) : Except ApiError (List CartItem) :=
  match findUser db uid with
  | none => .error .notFound
  | some _ => .ok (userCart db uid)

/-- Success payload of `POST /cart`: HTTP status (200 for an updated
existing row, 201 for a freshly created one), the affected row, and the
full refetched cart. -/
structure AddCartResult : Type where
  status : Nat
  item : CartItem
  cart : List CartItem
deriving Repr, DecidableEq

/-- `add_to_cart` (`cart_routes.py:29-96`): the quantity check precedes the
product lookup; an existing (user, product) row is incremented, otherwise a
new row is inserted; the response status is
`200 if cart_item.quantity > quantity else 201`. -/
def add_to_cart (db : DB) (uid pid : Nat) (qty : Int) :
    DB × Except ApiError AddCartResult :=
  match findUser db uid with
  | none => (db, .error .notFound)
  | some _ =>
    if qty < 1 then (db, .error .validation)
    else
      match findProduct db pid with
      | none => (db, .error .notFound)
      | some product =>
        if product.sellerId == uid then (db, .error .forbidden)
        else
          match findCartItem db uid pid with
          | some ci =>
            let ci' : CartItem := { ci with quantity := ci.quantity + qty }
            let rows :=
              updateFirst (fun c => c.userId == uid && c.productId == pid)
                (fun c => { c with quantity := c.quantity + qty }) db.cartItems
            let db' : DB := { db with cartItems := rows }
            (db', .ok ⟨if ci'.quantity > qty then 200 else 201, ci', userCart db' uid⟩)
          | none =>
            let ci' : CartItem := ⟨uid, pid, qty⟩
            let db' : DB := { db with cartItems := db.cartItems ++ [ci'] }
            (db', .ok ⟨if ci'.quantity > qty then 200 else 201, ci', userCart db' uid⟩)

/-- `update_cart_item_quantity` (`cart_routes.py:99-147`): quantity below 1
deletes the row (success, item `none`); otherwise the quantity is set. -/
def update_cart_item_quantity (db : DB) (uid pid : Nat) (qty : Int) :
    DB × Except ApiError (Option CartItem × List CartItem) :=
  match findUser db uid with
  | none => (db, .error .notFound)
  | some _ =>
    match findCartItem db uid pid with
    | none => (db, .error .notFound)
    | some ci =>
      if qty < 1 then
        let db' : DB :=
          { db with cartItems :=
              removeFirst (fun c => c.userId == uid && c.productId == pid) db.cartItems }
        (db', .ok (none, userCart db' uid))
      else
        let rows :=
          updateFirst (fun c => c.userId == uid && c.productId == pid)
            (fun c => { c with quantity := qty }) db.cartItems
        let db' : DB := { db with cartItems := rows }
        (db', .ok (some { ci with quantity := qty }, userCart db' uid))

/-- `remove_from_cart` (`cart_routes.py:150-179`). -/
def remove_from_cart (db : DB) (uid pid : Nat) :
    DB × Except ApiError (List CartItem) :=
  match findUser db uid with
  | none => (db, .error .notFound)
  | some _ =>
    match findCartItem db uid pid with
    | none => (db, .error .notFound)
    | some _ =>
      let db' : DB :=
        { db with cartItems :=
            removeFirst (fun c => c.userId == uid && c.productId == pid) db.cartItems }
      (db', .ok (userCart db' uid))

/-! ### Checkout (`cart_routes.py:182-252`) -/

/-- `round(x, 2)`: rounding to two decimal places. -/
def round2 (x : ℚ) : ℚ := (round (x * 100) : ℤ) / 100

/-- The PurchaseItem snapshot built for one cart row
(`cart_routes.py:208-214` and `227-236`). -/
def snapshotOf (purchId : Nat) (c : CartItem) (p : Product) : PurchaseItem :=
  ⟨purchId, p.id, c.quantity, p.price, p.title, p.imageFilenames.head?⟩

/-- The `for item in cart_items_to_checkout` loop resolving the product of each row (`cart_routes.py:201-204`): `none` as soon as a product is
missing. -/
def resolveCart (db : DB) : List CartItem → Option (List (CartItem × Product))
  | [] => some []
  | c :: t =>
    match findProduct db c.productId with
    | none => none
    | some p => (resolveCart db t).map (fun r => (c, p) :: r)

/-- `checkout` (`cart_routes.py:182-252`): empty cart is Validation; a
missing product aborts with Internal before anything is written; otherwise
one Purchase (total rounded to 2 decimals) plus one PurchaseItem per cart
row are inserted and the cart rows of the user deleted, all in one
transaction. -/
def checkout (db : DB) (uid : Nat) :
    DB × Except ApiError (Nat × Purchase × List PurchaseItem) :=
  match findUser db uid with
  | none => (db, .error .notFound)
  | some _ =>
    let cart := userCart db uid
    if cart.isEmpty then (db, .error .validation)
    else
      match resolveCart db cart with
      | none => (db, .error .internal)
      | some resolved =>
        let total : ℚ :=
          round2 ((resolved.map (fun cp => cp.2.price * (cp.1.quantity : ℚ))).sum)
        let newPurchase : Purchase := ⟨db.nextPurchaseId, uid, total, db.clock⟩
        let items : List PurchaseItem :=
          resolved.map (fun cp => snapshotOf newPurchase.id cp.1 cp.2)
        ({ db with
             purchases := db.purchases ++ [newPurchase],
             purchaseItems := db.purchaseItems ++ items,
             cartItems := db.cartItems.filter (fun c => !(c.userId == uid)),
             nextPurchaseId := db.nextPurchaseId + 1 },
         .ok (newPurchase.id, newPurchase, items))

/-! ### Purchase history (`purchase_routes.py`) -/

/-- Insert into a list kept sorted by a Nat key, descending. -/
def insertDesc (key : α → Nat) (a : α) : List α → List α
  | [] => [a]
  | b :: t => if key b ≤ key a then a :: b :: t else b :: insertDesc key a t

/-- `order_by(... .desc())`: sort descending by a Nat key. -/
def sortDesc (key : α → Nat) : List α → List α
  | [] => []
  | a :: t => insertDesc key a (sortDesc key t)

/-- `get_purchase_history` (`purchase_routes.py:8-32`): the purchases of the user, most recent first. -/
def get_purchase_history (db : DB) (uid : Nat) : Except ApiError (List Purchase) :=
  match findUser db uid with
  | none => .error .notFound
  | some _ =>
    .ok (sortDesc Purchase.purchaseDate (db.purchases.filter (fun p => p.userId == uid)))

/-! ### Wishlist routes (`wishlist_routes.py`) -/

/-- `GET /wishlist` (`wishlist_routes.py:8-24`). -/
def get_wishlist (db : DB) (uid : Nat) : Except ApiError (List Product) :=
  match findUser db uid with
  | none => .error .notFound
  | some _ =>
    .ok ((db.wishlist.filter (fun w => w.1 == uid)).filterMap
          (fun w => findProduct db w.2))

/-- `add_to_wishlist` (`wishlist_routes.py:26-58`): the already-present
Conflict check precedes the own-product Forbidden check. -/
def add_to_wishlist (db : DB) (uid pid : Nat) : DB × Except ApiError Nat :=
  match findUser db uid with
  | none => (db, .error .notFound)
  | some _ =>
    match findProduct db pid with
    | none => (db, .error .notFound)
    | some product =>
      if db.wishlist.contains (uid, pid) then (db, .error .conflict)
      else if product.sellerId == uid then (db, .error .forbidden)
      else ({ db with wishlist := db.wishlist ++ [(uid, pid)] }, .ok pid)

/-- `remove_from_wishlist` (`wishlist_routes.py:60-91`). -/
def remove_from_wishlist (db : DB) (uid pid : Nat) : DB × Except ApiError Nat :=
  match findUser db uid with
  | none => (db, .error .notFound)
  | some _ =>
    match findProduct db pid with
    | none => (db, .error .notFound)
    | some _ =>
      if !(db.wishlist.contains (uid, pid)) then (db, .error .notFound)
      else
        ({ db with wishlist := removeFirst (fun w => w == (uid, pid)) db.wishlist },
         .ok pid)

/-! ### Product listing (`product_routes.py:203-221`) -/

/-- Substring test on character lists, the meaning of a SQL LIKE with the
pattern wrapped in percent wildcards. -/
def containsSub (pat : List Char) : List Char → Bool
  | [] => pat.isEmpty
  | a :: t => pat.isPrefixOf (a :: t) || containsSub pat t

/-- `category.ilike(filter)`: case-insensitive match, skipped for a blank
filter or the literal `all` (`product_routes.py:208-209`). -/
def matchesCategory (p : Product) (filt : Option String) : Bool :=
  match filt with
  | none => true
  | some c =>
    if c == "" || lowerStr c == "all" then true
    else lowerStr p.category == lowerStr c

/-- Substring match over title OR description via `ilike`, case-insensitive
(`product_routes.py:210-212`). -/
def matchesSearch (p : Product) (q : Option String) : Bool :=
  match q with
  | none => true
  | some s =>
    if s == "" then true
    else containsSub (lowerStr s).toList (lowerStr p.title).toList ||
         containsSub (lowerStr s).toList (lowerStr p.description).toList

/-- The `paginate(...)` result shape (`product_routes.py:215-221`). -/
structure ProductPage : Type where
  products : List Product
  totalProducts : Nat
  currentPage : Nat
  totalPages : Nat
  hasNext : Bool
  hasPrev : Bool
deriving Repr, DecidableEq

/-- Flask-SQLAlchemy `paginate(page, per_page, error_out=False)`: a page
below 1 is clamped to 1, `pages` is `ceil(total / per_page)`,
`has_next = page < pages`, `has_prev = page > 1`. -/
def paginate (l : List Product) (page perPage : Nat) : ProductPage :=
  let pg := max page 1
  let total := l.length
  let pages := (total + perPage - 1) / perPage
  ⟨(l.drop ((pg - 1) * perPage)).take perPage, total, pg, pages,
   decide (pg < pages), decide (1 < pg)⟩

/-- `get_products` (`product_routes.py:203-221`): filter by category and
search query, newest first, paginated. -/
def get_products (db : DB) (cat q : Option String) (page perPage : Nat) :
    ProductPage :=
  paginate
    (sortDesc Product.createdAt
      ((db.products.filter (fun p => matchesCategory p cat)).filter
        (fun p => matchesSearch p q)))
    page perPage

/-! ### Derived views used to state the checkout specification -/

/-- The product a cart row refers to (defaulting on a dangling reference;
only used under the hypothesis that the product exists). -/
def productOf (db : DB) (c : CartItem) : Product :=
  (findProduct db c.productId).getD ⟨0, "", "", "", 0, 0, [], 0⟩

/-- The checkout total before rounding: Σ product.price × quantity over
the cart rows of the user. -/
def cartTotal (db : DB) (uid : Nat) : ℚ :=
  ((userCart db uid).map (fun c => (productOf db c).price * (c.quantity : ℚ))).sum

/-- The snapshot checkout records for one cart row. -/
def snapshotFor (db : DB) (purchId : Nat) (c : CartItem) : PurchaseItem :=
  snapshotOf purchId c (productOf db c)

/-! ### The operation alphabet and reachable states -/

/-- Every state-mutating route of the API, with its parsed request data. -/
inductive Op : Type
  | opRegister (data : Option RegisterData)
  | opUpdateProfile (uid : Nat) (data : Option ProfileData)
  | opCreateProduct (uid : Nat) (isMultipart : Bool) (form : ProductForm)
  | opUpdateProduct (uid pid : Nat) (isMultipart : Bool) (f : ProductUpdateForm)
  | opDeleteProduct (uid pid : Nat)
  | opAddToCart (uid pid : Nat) (qty : Int)
  | opUpdateCartItem (uid pid : Nat) (qty : Int)
  | opRemoveFromCart (uid pid : Nat)
  | opCheckout (uid : Nat)
  | opWishlistAdd (uid pid : Nat)
  | opWishlistRemove (uid pid : Nat)

/-- The store after running one route (error paths leave it unchanged). -/
def applyOp (db : DB) : Op → DB
  | .opRegister d => (register db d).1
  | .opUpdateProfile uid d => (update_profile db uid d).1
  | .opCreateProduct uid m f => (create_product db uid m f).1
  | .opUpdateProduct uid pid m f => (update_product db uid pid m f).1
  | .opDeleteProduct uid pid => (delete_product db uid pid).1
  | .opAddToCart uid pid q => (add_to_cart db uid pid q).1
  | .opUpdateCartItem uid pid q => (update_cart_item_quantity db uid pid q).1
  | .opRemoveFromCart uid pid => (remove_from_cart db uid pid).1
  | .opCheckout uid => (checkout db uid).1
  | .opWishlistAdd uid pid => (add_to_wishlist db uid pid).1
  | .opWishlistRemove uid pid => (remove_from_wishlist db uid pid).1

/-- The freshly migrated store: no rows, autoincrement counters at 1. -/
def initDB : DB := ⟨[], [], [], [], [], [], 1, 1, 1, 0⟩

/-- States reachable from the fresh store by running routes. -/
inductive Reachable : DB → Prop
  | init : Reachable initDB
  | step (db : DB) (op : Op) : Reachable db → Reachable (applyOp db op)

/-- The data-model invariants of the spec: positive prices, cart quantities at
least 1, and no user holding their own product in cart or wishlist. -/
def Inv (db : DB) : Prop :=
  (∀ p ∈ db.products, 0 < p.price) ∧
  (∀ c ∈ db.cartItems, 1 ≤ c.quantity) ∧
  (∀ c ∈ db.cartItems, ∀ p ∈ db.products, p.id = c.productId → p.sellerId ≠ c.userId) ∧
  (∀ w ∈ db.wishlist, ∀ p ∈ db.products, p.id = w.2 → p.sellerId ≠ w.1)

/-- Bookkeeping invariants of the autoincrement scheme: ids are below the
counter (so never reused) and product ids are pairwise distinct. -/
def Fresh (db : DB) : Prop :=
  (∀ p ∈ db.products, p.id < db.nextProductId) ∧
  (db.products.map Product.id).Pairwise (· ≠ ·) ∧
  (∀ c ∈ db.cartItems, c.productId < db.nextProductId) ∧
  (∀ w ∈ db.wishlist, w.2 < db.nextProductId)

/-- Pairwise-unique credentials across the User store. -/
def UniqueCreds (db : DB) : Prop :=
  db.users.Pairwise (fun a b => a.email ≠ b.email ∧ a.username ≠ b.username)

/-! ### Concrete fixtures for witnesses -/

def demoBuyer : User := ⟨1, "buyer@x", "buyer", "h1", none⟩
def demoSeller : User := ⟨2, "seller@x", "seller", "h2", none⟩

/-- productA of the checkout example in the spec: price 10.00. -/
def demoProductA : Product := ⟨1, "A", "descA", "cat", 10, 2, ["a.png"], 5⟩

/-- productB of the checkout example in the spec: price 5.50. -/
def demoProductB : Product := ⟨2, "B", "descB", "cat", 11/2, 2, [], 3⟩

/-- Two users, two products of the seller, the buyer cart holding
productA ×2 and productB ×1. -/
def demoDB : DB :=
  ⟨[demoBuyer, demoSeller], [demoProductA, demoProductB],
   [⟨1, 1, 2⟩, ⟨1, 2, 1⟩], [], [], [], 3, 3, 1, 10⟩

/-- Same store with an empty cart. -/
def demoEmptyCartDB : DB :=
  ⟨[demoBuyer, demoSeller], [demoProductA, demoProductB],
   [], [], [], [], 3, 3, 1, 10⟩

/-- Same store after productA was deleted while still referenced from the
cart (the data-integrity hazard checkout guards against). -/
def demoDanglingDB : DB :=
  ⟨[demoBuyer, demoSeller], [demoProductB],
   [⟨1, 1, 2⟩, ⟨1, 2, 1⟩], [], [], [], 3, 3, 1, 10⟩

/-- Demo store with productB saved in the buyer wishlist. -/
def demoWishDB : DB :=
  ⟨[demoBuyer, demoSeller], [demoProductA, demoProductB],
   [], [], [], [(1, 2)], 3, 3, 1, 10⟩

/-- Ten products of the same seller for the pagination example. -/
def demoTenProducts : List Product :=
  (List.range 10).map (fun i => ⟨i + 1, "P", "d", "cat", 1, 2, [], i⟩)

def demoListDB : DB :=
  ⟨[demoBuyer, demoSeller], demoTenProducts, [], [], [], [], 3, 11, 1, 20⟩

/-- Decidable equality of route outcomes (used only to evaluate witnesses
on concrete stores). -/
instance {ε α : Type} [DecidableEq ε] [DecidableEq α] :
    DecidableEq (Except ε α) := fun a b =>
  match a, b with
  | .ok x, .ok y =>
    if h : x = y then .isTrue (by rw [h]) else .isFalse (by simp [h])
  | .error x, .error y =>
    if h : x = y then .isTrue (by rw [h]) else .isFalse (by simp [h])
  | .ok _, .error _ => .isFalse (by simp)
  | .error _, .ok _ => .isFalse (by simp)

/-! ### Helper lemmas about the list primitives -/

theorem removeFirst_sublist (p : α → Bool) :
    ∀ l : List α, List.Sublist (removeFirst p l) l
  | [] => by simp [removeFirst]
  | a :: t => by
    simp only [removeFirst]
    split
    · exact List.sublist_cons_self a t
    · exact (removeFirst_sublist p t).cons₂ a

theorem mem_removeFirst {p : α → Bool} {l : List α} {a : α}
    (h : a ∈ removeFirst p l) : a ∈ l :=
  (removeFirst_sublist p l).subset h

theorem find?_removeFirst_self {p : α → Bool} :
    ∀ {l : List α}, l.countP p ≤ 1 → List.find? p (removeFirst p l) = none
  | [], _ => by simp [removeFirst]
  | a :: t, h => by
    simp only [removeFirst]
    split
    next hpa =>
      rw [List.find?_eq_none]
      intro x hx
      have hc : t.countP p = 0 := by
        have := List.countP_cons_of_pos (p := p) (l := t) hpa
        omega
      simpa using List.countP_eq_zero.mp hc x hx
    next hpa =>
      have hpa' : ¬ p a = true := by simpa using hpa
      rw [List.find?_cons_of_neg _ hpa']
      apply find?_removeFirst_self
      have := List.countP_cons_of_neg (p := p) (l := t) hpa'
      omega

theorem mem_updateFirst_of_find? {p : α → Bool} {f : α → α} {b : α} :
    ∀ {l : List α}, List.find? p l = some b →
      ∀ (a : α), a ∈ updateFirst p f l → a ∈ l ∨ a = f b
  | [], hf => by simp at hf
  | c :: t, hf => by
    intro a ha
    by_cases hpc : p c = true
    · rw [List.find?_cons_of_pos _ hpc] at hf
      injection hf with hb
      subst hb
      simp only [updateFirst, if_pos hpc, List.mem_cons] at ha
      rcases ha with h | h
      · exact Or.inr h
      · exact Or.inl (List.mem_cons_of_mem c h)
    · rw [List.find?_cons_of_neg _ hpc] at hf
      simp only [updateFirst, if_neg hpc, List.mem_cons] at ha
      rcases ha with h | h
      · exact Or.inl (h ▸ List.mem_cons_self c t)
      · rcases mem_updateFirst_of_find? hf a h with h' | h'
        · exact Or.inl (List.mem_cons_of_mem c h')
        · exact Or.inr h'

theorem map_key_updateFirst {p : α → Bool} {f : α → α} (key : α → β)
    (hf : ∀ a, p a = true → key (f a) = key a) :
    ∀ l : List α, (updateFirst p f l).map key = l.map key
  | [] => rfl
  | a :: t => by
    simp only [updateFirst]
    split
    next hpa => simp [hf a hpa]
    next => simp [map_key_updateFirst key hf t]

theorem find?_updateFirst {p : α → Bool} {f : α → α}
    (hpf : ∀ a, p a = true → p (f a) = true) :
    ∀ l : List α, List.find? p (updateFirst p f l) = (List.find? p l).map f
  | [] => rfl
  | a :: t => by
    by_cases hpa : p a = true
    · simp [updateFirst, if_pos hpa, List.find?_cons_of_pos _ hpa,
            List.find?_cons_of_pos _ (hpf a hpa)]
    · simp [updateFirst, if_neg hpa, List.find?_cons_of_neg _ hpa,
            find?_updateFirst hpf t]

theorem eq_of_mem_of_ids_pairwise {l : List Product}
    (hp : (l.map Product.id).Pairwise (· ≠ ·))
    {a b : Product} (ha : a ∈ l) (hb : b ∈ l) (hid : a.id = b.id) : a = b := by
  have hp' : l.Pairwise (fun x y => x.id ≠ y.id) := List.pairwise_map.mp hp
  by_contra hne
  exact hp'.forall (fun _ _ h => h.symm) ha hb hne hid

theorem length_insertDesc (key : α → Nat) (a : α) :
    ∀ l : List α, (insertDesc key a l).length = l.length + 1
  | [] => rfl
  | b :: t => by
    simp only [insertDesc]
    split
    · rfl
    · simp [length_insertDesc key a t]

theorem length_sortDesc (key : α → Nat) :
    ∀ l : List α, (sortDesc key l).length = l.length
  | [] => rfl
  | a :: t => by simp [sortDesc, length_insertDesc, length_sortDesc key t]

theorem mem_insertDesc (key : α → Nat) (a : α) :
    ∀ l : List α, ∀ b, b ∈ insertDesc key a l → b = a ∨ b ∈ l
  | [], b => by simp [insertDesc]
  | c :: t, b => by
    simp only [insertDesc]
    split
    · intro h
      rcases List.mem_cons.mp h with h' | h'
      · exact Or.inl h'
      · exact Or.inr h'
    · intro h
      rcases List.mem_cons.mp h with h' | h'
      · exact Or.inr (h' ▸ List.mem_cons_self c t)
      · rcases mem_insertDesc key a t b h' with h'' | h''
        · exact Or.inl h''
        · exact Or.inr (List.mem_cons_of_mem c h'')

theorem pairwise_insertDesc (key : α → Nat) (a : α) :
    ∀ l : List α, l.Pairwise (fun x y => key y ≤ key x) →
      (insertDesc key a l).Pairwise (fun x y => key y ≤ key x)
  | [], _ => by simp [insertDesc]
  | b :: t, h => by
    rcases List.pairwise_cons.mp h with ⟨hb, ht⟩
    simp only [insertDesc]
    split
    next hle =>
      refine List.pairwise_cons.mpr ⟨?_, h⟩
      intro c hc
      rcases List.mem_cons.mp hc with h' | h'
      · exact h' ▸ hle
      · exact le_trans (hb c h') hle
    next hgt =>
      have hlt : key b ≤ key a → False := fun h' => hgt h'
      refine List.pairwise_cons.mpr ⟨?_, pairwise_insertDesc key a t ht⟩
      intro c hc
      rcases mem_insertDesc key a t c hc with h' | h'
      · exact h' ▸ Nat.le_of_lt (Nat.lt_of_not_le hlt)
      · exact hb c h'

theorem pairwise_sortDesc (key : α → Nat) :
    ∀ l : List α, (sortDesc key l).Pairwise (fun x y => key y ≤ key x)
  | [] => by simp [sortDesc]
  | a :: t => pairwise_insertDesc key a _ (pairwise_sortDesc key t)

theorem resolveCart_all_some (db : DB) :
    ∀ l : List CartItem, (∀ c ∈ l, (findProduct db c.productId).isSome) →
      resolveCart db l = some (l.map (fun c => (c, productOf db c)))
  | [], _ => rfl
  | c :: t, h => by
    obtain ⟨p, hp⟩ :=
      Option.isSome_iff_exists.mp (h c (List.mem_cons_self c t))
    have ht := resolveCart_all_some db t
      (fun x hx => h x (List.mem_cons_of_mem c hx))
    simp [resolveCart, hp, ht, productOf]

theorem resolveCart_none (db : DB) :
    ∀ l : List CartItem, (∃ c ∈ l, findProduct db c.productId = none) →
      resolveCart db l = none
  | [], h => by simp at h
  | c :: t, h => by
    obtain ⟨x, hx, hnone⟩ := h
    rcases List.mem_cons.mp hx with h' | h'
    · subst h'
      simp [resolveCart, hnone]
    · cases hc : findProduct db c.productId with
      | none => simp [resolveCart, hc]
      | some p => simp [resolveCart, hc, resolveCart_none db t ⟨x, h', hnone⟩]

theorem filter_not_filter (p : α → Bool) :
    ∀ l : List α, (l.filter (fun a => !(p a))).filter p = []
  | [] => rfl
  | a :: t => by
    by_cases h : p a <;> simp [h, filter_not_filter p t]

/-! ### Claim theorems -/

/-- C1: for every user with a non-empty cart in which each referenced
referenced product exists, checkout creates exactly one Purchase whose
total is Σ(price × quantity) rounded to 2 decimal places, creates exactly
one PurchaseItem per cart row snapshotting product id, title, quantity and
price at purchase, deletes all cart rows of the user, and returns the new
Purchase id with its detail. -/
theorem checkout_success_spec (db : DB) (uid : Nat) (u : User)
    (hu : findUser db uid = some u)
    (hne : userCart db uid ≠ [])
    (hall : ∀ c ∈ userCart db uid, (findProduct db c.productId).isSome) :
    checkout db uid =
      ({ db with
           purchases :=
             db.purchases ++
               [⟨db.nextPurchaseId, uid, round2 (cartTotal db uid), db.clock⟩],
           purchaseItems :=
             db.purchaseItems ++
               (userCart db uid).map (snapshotFor db db.nextPurchaseId),
           cartItems := db.cartItems.filter (fun c => !(c.userId == uid)),
           nextPurchaseId := db.nextPurchaseId + 1 },
       .ok (db.nextPurchaseId,
            ⟨db.nextPurchaseId, uid, round2 (cartTotal db uid), db.clock⟩,
            (userCart db uid).map (snapshotFor db db.nextPurchaseId))) ∧
    userCart (checkout db uid).1 uid = [] := by
  have hres := resolveCart_all_some db (userCart db uid) hall
  have hempty : (userCart db uid).isEmpty = false := by
    cases h : userCart db uid with
    | nil => exact absurd h hne
    | cons a t => rfl
  have hmain : checkout db uid =
      ({ db with
           purchases :=
             db.purchases ++
               [⟨db.nextPurchaseId, uid, round2 (cartTotal db uid), db.clock⟩],
           purchaseItems :=
             db.purchaseItems ++
               (userCart db uid).map (snapshotFor db db.nextPurchaseId),
           cartItems := db.cartItems.filter (fun c => !(c.userId == uid)),
           nextPurchaseId := db.nextPurchaseId + 1 },
       .ok (db.nextPurchaseId,
            ⟨db.nextPurchaseId, uid, round2 (cartTotal db uid), db.clock⟩,
            (userCart db uid).map (snapshotFor db db.nextPurchaseId))) := by
    simp [checkout, hu, hempty, hres, cartTotal, snapshotFor, List.map_map,
          Function.comp_def]
  refine ⟨hmain, ?_⟩
  rw [hmain]
  exact filter_not_filter (fun c => c.userId == uid) db.cartItems

/-- C1 witness: the two-item cart of the spec (price 10.00 × 2 and 5.50 × 1)
checks out to exactly one Purchase with two snapshots and an empty cart. -/
theorem checkout_success_spec_witness :
    checkout demoDB 1 =
      ({ demoDB with
           purchases := demoDB.purchases ++
             [⟨demoDB.nextPurchaseId, 1, round2 (cartTotal demoDB 1), demoDB.clock⟩],
           purchaseItems := demoDB.purchaseItems ++
             (userCart demoDB 1).map (snapshotFor demoDB demoDB.nextPurchaseId),
           cartItems := demoDB.cartItems.filter (fun c => !(c.userId == 1)),
           nextPurchaseId := demoDB.nextPurchaseId + 1 },
       .ok (demoDB.nextPurchaseId,
            ⟨demoDB.nextPurchaseId, 1, round2 (cartTotal demoDB 1), demoDB.clock⟩,
            (userCart demoDB 1).map (snapshotFor demoDB demoDB.nextPurchaseId))) ∧
    userCart (checkout demoDB 1).1 1 = [] :=
  checkout_success_spec demoDB 1 demoBuyer (by decide) (by decide) (by decide)

/-- C2: checkout fails with Validation on an empty cart and with Internal
when a cart row references a missing product; in both failure cases the
store is returned unchanged (no Purchase or PurchaseItem created, cart
rows intact). -/
theorem checkout_failure_spec (db : DB) (uid : Nat) (u : User)
    (hu : findUser db uid = some u) :
    (userCart db uid = [] → checkout db uid = (db, .error .validation)) ∧
    ((∃ c ∈ userCart db uid, findProduct db c.productId = none) →
      checkout db uid = (db, .error .internal)) := by
  constructor
  · intro h
    simp [checkout, hu, h]
  · intro h
    have hne : (userCart db uid).isEmpty = false := by
      obtain ⟨c, hc, _⟩ := h
      cases hl : userCart db uid with
      | nil => rw [hl] at hc; simp at hc
      | cons a t => rfl
    simp [checkout, hu, hne, resolveCart_none db _ h]

/-- C2 witness: an empty cart is rejected with Validation; a cart whose
productA was deleted is rejected with Internal; both leave the store as it
was. -/
theorem checkout_failure_spec_witness :
    checkout demoEmptyCartDB 1 = (demoEmptyCartDB, .error .validation) ∧
    checkout demoDanglingDB 1 = (demoDanglingDB, .error .internal) :=
  ⟨(checkout_failure_spec demoEmptyCartDB 1 demoBuyer (by decide)).1 (by decide),
   (checkout_failure_spec demoDanglingDB 1 demoBuyer (by decide)).2 (by decide)⟩

/-- C4: addItem fails with Validation for quantity < 1 (checked before the
product lookup), NotFound for a missing product, Forbidden for the own
own product; an existing (user, product) row is incremented by the given
quantity (HTTP 200), otherwise a row with exactly the given quantity is
inserted (HTTP 201); the response carries the affected item and the full
updated cart, the status distinguishing the two cases. -/
theorem add_to_cart_spec (db : DB) (uid pid : Nat) (qty : Int) (u : User)
    (hu : findUser db uid = some u) :
    (qty < 1 → add_to_cart db uid pid qty = (db, .error .validation)) ∧
    (¬ qty < 1 → findProduct db pid = none →
      add_to_cart db uid pid qty = (db, .error .notFound)) ∧
    (∀ p, ¬ qty < 1 → findProduct db pid = some p → p.sellerId = uid →
      add_to_cart db uid pid qty = (db, .error .forbidden)) ∧
    (∀ p ci, ¬ qty < 1 → findProduct db pid = some p → p.sellerId ≠ uid →
      findCartItem db uid pid = some ci → 1 ≤ ci.quantity →
      add_to_cart db uid pid qty =
        (let rows := updateFirst (fun c => c.userId == uid && c.productId == pid)
            (fun c => { c with quantity := c.quantity + qty }) db.cartItems
         ({ db with cartItems := rows },
          .ok ⟨200, { ci with quantity := ci.quantity + qty },
               userCart { db with cartItems := rows } uid⟩))) ∧
    (∀ p, ¬ qty < 1 → findProduct db pid = some p → p.sellerId ≠ uid →
      findCartItem db uid pid = none →
      add_to_cart db uid pid qty =
        ({ db with cartItems := db.cartItems ++ [⟨uid, pid, qty⟩] },
         .ok ⟨201, ⟨uid, pid, qty⟩,
              userCart { db with cartItems := db.cartItems ++ [⟨uid, pid, qty⟩] } uid⟩)) := by
  refine ⟨?_, ?_, ?_, ?_, ?_⟩
  · intro h
    simp [add_to_cart, hu, h]
  · intro h hnp
    simp [add_to_cart, hu, h, hnp]
  · intro p h hp hs
    simp [add_to_cart, hu, h, hp, hs]
  · intro p ci h hp hs hci hq
    have hgt : ci.quantity + qty > qty := by omega
    simp [add_to_cart, hu, h, hp, hs, hci, hgt]
  · intro p h hp hs hci
    have hngt : ¬ qty > qty := by omega
    simp [add_to_cart, hu, h, hp, hs, hci, hngt]

/-- C4 witness: on the demo store, adding 3 more of productA (already in
the cart with quantity 2) updates the row to 5 with status 200; adding
productB to an empty cart creates a quantity-1 row with status 201. -/
theorem add_to_cart_spec_witness :
    (add_to_cart demoDB 1 1 3).2 =
      .ok ⟨200, ⟨1, 1, 5⟩, [⟨1, 1, 5⟩, ⟨1, 2, 1⟩]⟩ ∧
    (add_to_cart demoEmptyCartDB 1 2 1).2 =
      .ok ⟨201, ⟨1, 2, 1⟩, [⟨1, 2, 1⟩]⟩ := by
  constructor
  · have h := (add_to_cart_spec demoDB 1 1 3 demoBuyer (by decide)).2.2.2.1
      demoProductA ⟨1, 1, 2⟩ (by decide) (by decide) (by decide) (by decide)
      (by decide)
    rw [h]
    decide
  · have h := (add_to_cart_spec demoEmptyCartDB 1 2 1 demoBuyer
      (by decide)).2.2.2.2 demoProductB (by decide) rfl (by decide)
      (by decide)
    rw [h]
    decide

/-- C5: updateItem fails with NotFound when the user has no cart row for
the product; quantity < 1 deletes the row (success, not an error) so the
row is absent afterwards (given rows are unique per (user, product));
quantity ≥ 1 sets the row quantity to exactly the given value, leaving
every other cart row unchanged. -/
theorem update_cart_item_spec (db : DB) (uid pid : Nat) (qty : Int) (u : User)
    (hu : findUser db uid = some u) :
    (findCartItem db uid pid = none →
      update_cart_item_quantity db uid pid qty = (db, .error .notFound)) ∧
    (∀ ci, findCartItem db uid pid = some ci → qty < 1 →
      update_cart_item_quantity db uid pid qty =
        (let rows := removeFirst (fun c => c.userId == uid && c.productId == pid)
            db.cartItems
         ({ db with cartItems := rows },
          .ok (none, userCart { db with cartItems := rows } uid))) ∧
      (db.cartItems.countP (fun c => c.userId == uid && c.productId == pid) ≤ 1 →
        findCartItem (update_cart_item_quantity db uid pid qty).1 uid pid = none)) ∧
    (∀ ci, findCartItem db uid pid = some ci → ¬ qty < 1 →
      update_cart_item_quantity db uid pid qty =
        (let rows := updateFirst (fun c => c.userId == uid && c.productId == pid)
            (fun c => { c with quantity := qty }) db.cartItems
         ({ db with cartItems := rows },
          .ok (some { ci with quantity := qty },
               userCart { db with cartItems := rows } uid))) ∧
      findCartItem (update_cart_item_quantity db uid pid qty).1 uid pid =
        some { ci with quantity := qty }) := by
  refine ⟨?_, ?_, ?_⟩
  · intro h
    simp [update_cart_item_quantity, hu, h]
  · intro ci hci hq
    have hmain : update_cart_item_quantity db uid pid qty =
        (let rows := removeFirst (fun c => c.userId == uid && c.productId == pid)
            db.cartItems
         ({ db with cartItems := rows },
          .ok (none, userCart { db with cartItems := rows } uid))) := by
      simp [update_cart_item_quantity, hu, hci, hq]
    refine ⟨hmain, ?_⟩
    intro hcount
    rw [hmain]
    exact find?_removeFirst_self hcount
  · intro ci hci hq
    have hmain : update_cart_item_quantity db uid pid qty =
        (let rows := updateFirst (fun c => c.userId == uid && c.productId == pid)
            (fun c => { c with quantity := qty }) db.cartItems
         ({ db with cartItems := rows },
          .ok (some { ci with quantity := qty },
               userCart { db with cartItems := rows } uid))) := by
      simp [update_cart_item_quantity, hu, hci, hq]
    refine ⟨hmain, ?_⟩
    rw [hmain]
    show List.find? (fun c => c.userId == uid && c.productId == pid)
        (updateFirst (fun c => c.userId == uid && c.productId == pid)
          (fun c => { c with quantity := qty }) db.cartItems) = _
    rw [@find?_updateFirst CartItem (fun c => c.userId == uid && c.productId == pid)
        (fun c => { c with quantity := qty }) (fun a h => h) db.cartItems]
    show (findCartItem db uid pid).map (fun c => { c with quantity := qty }) = _
    rw [hci]
    rfl

/-- C5 witness: on the demo store, updating the productA row to 0 removes it;
updating it to 7 stores exactly 7 and leaves the productB row untouched. -/
theorem update_cart_item_spec_witness :
    (update_cart_item_quantity demoDB 1 1 0).2 = .ok (none, [⟨1, 2, 1⟩]) ∧
    findCartItem (update_cart_item_quantity demoDB 1 1 0).1 1 1 = none ∧
    (update_cart_item_quantity demoDB 1 1 7).2 =
      .ok (some ⟨1, 1, 7⟩, [⟨1, 1, 7⟩, ⟨1, 2, 1⟩]) := by
  have hdel := (update_cart_item_spec demoDB 1 1 0 demoBuyer (by decide)).2.1
    ⟨1, 1, 2⟩ (by decide) (by decide)
  have hset := (update_cart_item_spec demoDB 1 1 7 demoBuyer (by decide)).2.2
    ⟨1, 1, 2⟩ (by decide) (by decide)
  refine ⟨?_, hdel.2 (by decide), ?_⟩
  · rw [hdel.1]
    decide
  · rw [hset.1]
    decide

/-- C8: wishlist add fails with NotFound for a missing product, Conflict
for an already-present product (without duplicating the membership row)
and Forbidden for the own product of the user; wishlist remove fails with
NotFound for a missing product or a non-member; every failure leaves the
store unchanged. -/
theorem wishlist_spec (db : DB) (uid pid : Nat) (u : User)
    (hu : findUser db uid = some u) :
    (findProduct db pid = none →
      add_to_wishlist db uid pid = (db, .error .notFound)) ∧
    (∀ p, findProduct db pid = some p → (uid, pid) ∈ db.wishlist →
      add_to_wishlist db uid pid = (db, .error .conflict)) ∧
    (∀ p, findProduct db pid = some p → (uid, pid) ∉ db.wishlist →
      p.sellerId = uid →
      add_to_wishlist db uid pid = (db, .error .forbidden)) ∧
    (findProduct db pid = none →
      remove_from_wishlist db uid pid = (db, .error .notFound)) ∧
    (∀ p, findProduct db pid = some p → (uid, pid) ∉ db.wishlist →
      remove_from_wishlist db uid pid = (db, .error .notFound)) := by
  refine ⟨?_, ?_, ?_, ?_, ?_⟩
  · intro h
    simp [add_to_wishlist, hu, h]
  · intro p hp hmem
    simp [add_to_wishlist, hu, hp, hmem]
  · intro p hp hmem hs
    simp [add_to_wishlist, hu, hp, hmem, hs]
  · intro h
    simp [remove_from_wishlist, hu, h]
  · intro p hp hmem
    simp [remove_from_wishlist, hu, hp, hmem]

/-- C8 witness: on the demo store with productB wishlisted, re-adding it
is a Conflict, the seller cannot wishlist their own productA, removing the
non-member productA is NotFound, and a missing product id is NotFound for
both add and remove — the store unchanged each time. -/
theorem wishlist_spec_witness :
    add_to_wishlist demoWishDB 1 2 = (demoWishDB, .error .conflict) ∧
    add_to_wishlist demoWishDB 2 1 = (demoWishDB, .error .forbidden) ∧
    remove_from_wishlist demoWishDB 1 1 = (demoWishDB, .error .notFound) ∧
    add_to_wishlist demoWishDB 1 9 = (demoWishDB, .error .notFound) ∧
    remove_from_wishlist demoWishDB 1 9 = (demoWishDB, .error .notFound) :=
  ⟨(wishlist_spec demoWishDB 1 2 demoBuyer (by decide)).2.1 demoProductB rfl
      (by decide),
   (wishlist_spec demoWishDB 2 1 demoSeller (by decide)).2.2.1 demoProductA rfl
      (by decide) (by decide),
   (wishlist_spec demoWishDB 1 1 demoBuyer (by decide)).2.2.2.2 demoProductA rfl
      (by decide),
   (wishlist_spec demoWishDB 1 9 demoBuyer (by decide)).1 rfl,
   (wishlist_spec demoWishDB 1 9 demoBuyer (by decide)).2.2.2.1 rfl⟩

/-- C10: every authenticated operation, handed an identity whose user
record no longer exists, fails with NotFound and leaves the store
unchanged — not only getCurrentUser. -/
theorem missing_user_notfound_spec (db : DB) (uid : Nat)
    (h : findUser db uid = none) (pid : Nat) (qty : Int)
    (pd : Option ProfileData) :
    get_cart_items db uid = .error .notFound ∧
    add_to_cart db uid pid qty = (db, .error .notFound) ∧
    update_cart_item_quantity db uid pid qty = (db, .error .notFound) ∧
    remove_from_cart db uid pid = (db, .error .notFound) ∧
    checkout db uid = (db, .error .notFound) ∧
    get_wishlist db uid = .error .notFound ∧
    add_to_wishlist db uid pid = (db, .error .notFound) ∧
    remove_from_wishlist db uid pid = (db, .error .notFound) ∧
    get_purchase_history db uid = .error .notFound ∧
    get_me db uid = .error .notFound ∧
    update_profile db uid pd = (db, .error .notFound) := by
  refine ⟨?_, ?_, ?_, ?_, ?_, ?_, ?_, ?_, ?_, ?_, ?_⟩ <;>
    simp [get_cart_items, add_to_cart, update_cart_item_quantity,
          remove_from_cart, checkout, get_wishlist, add_to_wishlist,
          remove_from_wishlist, get_purchase_history, get_me,
          update_profile, h]

/-- C10 witness: on the empty initial store no user with id 1 exists, and
all eleven authenticated operations answer NotFound without touching the
store. -/
theorem missing_user_notfound_spec_witness :
    get_cart_items initDB 1 = .error .notFound ∧
    add_to_cart initDB 1 1 1 = (initDB, .error .notFound) ∧
    update_cart_item_quantity initDB 1 1 1 = (initDB, .error .notFound) ∧
    remove_from_cart initDB 1 1 = (initDB, .error .notFound) ∧
    checkout initDB 1 = (initDB, .error .notFound) ∧
    get_wishlist initDB 1 = .error .notFound ∧
    add_to_wishlist initDB 1 1 = (initDB, .error .notFound) ∧
    remove_from_wishlist initDB 1 1 = (initDB, .error .notFound) ∧
    get_purchase_history initDB 1 = .error .notFound ∧
    get_me initDB 1 = .error .notFound ∧
    update_profile initDB 1 none = (initDB, .error .notFound) :=
  missing_user_notfound_spec initDB 1 rfl 1 1 none

/-- Exhaustive shape analysis of `register`: every call either leaves the
store unchanged (all failure paths) or appends exactly one user whose
email and username occur nowhere else. -/
theorem register_cases (db : DB) (data : Option RegisterData) :
    (register db data).1 = db ∨
    ∃ es us ps pi,
      register db data =
        ({ db with
             users := db.users ++ [⟨db.nextUserId, es, us, hashPassword ps, pi⟩],
             nextUserId := db.nextUserId + 1 },
         .ok (makeTokens db.nextUserId,
              ⟨db.nextUserId, es, us, hashPassword ps, pi⟩)) ∧
      (∀ x ∈ db.users, x.email ≠ es) ∧ (∀ x ∈ db.users, x.username ≠ us) := by
  cases data with
  | none => exact Or.inl rfl
  | some d =>
    rcases he : d.email with _ | e
    · simp [register, he]
    · rcases hn : d.username with _ | n
      · simp [register, he, hn]
      · rcases hp : d.password with _ | p
        · simp [register, he, hn, hp]
        · by_cases ht : e.truthy && n.truthy && p.truthy
          · rcases hes : e.asStr? with _ | es
            · simp [register, he, hn, hp, ht, hes]
            · rcases hns : n.asStr? with _ | ns
              · simp [register, he, hn, hp, ht, hes, hns]
              · rcases hps : p.asStr? with _ | ps
                · simp [register, he, hn, hp, ht, hes, hns, hps]
                · by_cases hlen : ps.length < 6
                  · simp [register, he, hn, hp, ht, hes, hns, hps, hlen]
                  · by_cases hdup : db.users.any (fun x => x.email == es)
                    · simp [register, he, hn, hp, ht, hes, hns, hps, hlen, hdup]
                    · by_cases hdup2 : db.users.any (fun x => x.username == ns)
                      · simp [register, he, hn, hp, ht, hes, hns, hps, hlen,
                              hdup, hdup2]
                      · refine Or.inr ⟨es, ns, ps, d.profileImage, ?_, ?_, ?_⟩
                        · simp [register, he, hn, hp, ht, hes, hns, hps, hlen,
                                hdup, hdup2]
                        · intro x hx
                          have := (List.any_eq_false.mp
                            (Bool.of_not_eq_true hdup)) x hx
                          simpa using this
                        · intro x hx
                          have := (List.any_eq_false.mp
                            (Bool.of_not_eq_true hdup2)) x hx
                          simpa using this
          · simp [register, he, hn, hp, ht]

/-- C6: register rejects a missing or non-string required field and a
password shorter than 6 characters with Validation, rejects a duplicate
email or username with Conflict, and on success appends the new User and
issues the access/refresh token pair; no failure path creates a User, and
email/username uniqueness of the store is preserved by every call. -/
theorem register_spec (db : DB) (d : RegisterData) :
    ((d.email = none ∨ d.username = none ∨ d.password = none) →
      register db (some d) = (db, .error .validation)) ∧
    (∀ e n p, d.email = some e → d.username = some n → d.password = some p →
      e.truthy → n.truthy → p.truthy →
      (e.asStr? = none ∨ n.asStr? = none ∨ p.asStr? = none) →
      register db (some d) = (db, .error .validation)) ∧
    (∀ es us ps, d.email = some (.jstr es) → d.username = some (.jstr us) →
      d.password = some (.jstr ps) → es ≠ "" → us ≠ "" → ps.length < 6 →
      register db (some d) = (db, .error .validation)) ∧
    (∀ es us ps, d.email = some (.jstr es) → d.username = some (.jstr us) →
      d.password = some (.jstr ps) → es ≠ "" → us ≠ "" → ¬ ps.length < 6 →
      (∃ x ∈ db.users, x.email = es) →
      register db (some d) = (db, .error .conflict)) ∧
    (∀ es us ps, d.email = some (.jstr es) → d.username = some (.jstr us) →
      d.password = some (.jstr ps) → es ≠ "" → us ≠ "" → ¬ ps.length < 6 →
      (∀ x ∈ db.users, x.email ≠ es) → (∃ x ∈ db.users, x.username = us) →
      register db (some d) = (db, .error .conflict)) ∧
    (∀ es us ps, d.email = some (.jstr es) → d.username = some (.jstr us) →
      d.password = some (.jstr ps) → es ≠ "" → us ≠ "" → ¬ ps.length < 6 →
      (∀ x ∈ db.users, x.email ≠ es) → (∀ x ∈ db.users, x.username ≠ us) →
      register db (some d) =
        ({ db with
             users := db.users ++
               [⟨db.nextUserId, es, us, hashPassword ps, d.profileImage⟩],
             nextUserId := db.nextUserId + 1 },
         .ok (makeTokens db.nextUserId,
              ⟨db.nextUserId, es, us, hashPassword ps, d.profileImage⟩))) ∧
    (∀ data : Option RegisterData, ∀ e : ApiError,
      (register db data).2 = .error e → (register db data).1 = db) ∧
    (∀ data : Option RegisterData,
      UniqueCreds db → UniqueCreds (register db data).1) := by
  refine ⟨?_, ?_, ?_, ?_, ?_, ?_, ?_, ?_⟩
  · rintro (h | h | h)
    · rcases hn : d.username with _ | n <;> rcases hp : d.password with _ | p <;>
        simp [register, h, hn, hp]
    · rcases he : d.email with _ | e <;> rcases hp : d.password with _ | p <;>
        simp [register, h, he, hp]
    · rcases he : d.email with _ | e <;> rcases hn : d.username with _ | n <;>
        simp [register, h, he, hn]
  · intro e n p he hn hp het hnt hpt hbad
    have ht : (e.truthy && n.truthy && p.truthy) = true := by
      simp [het, hnt, hpt]
    rcases hbad with h | h | h
    · rcases hns : n.asStr? with _ | ns <;> rcases hps : p.asStr? with _ | ps <;>
        simp [register, he, hn, hp, ht, h, hns, hps]
    · rcases hes : e.asStr? with _ | es <;> rcases hps : p.asStr? with _ | ps <;>
        simp [register, he, hn, hp, ht, h, hes, hps]
    · rcases hes : e.asStr? with _ | es <;> rcases hns : n.asStr? with _ | ns <;>
        simp [register, he, hn, hp, ht, h, hes, hns]
  · intro es us ps he hn hp het hnt hlen
    by_cases hps : ps = ""
    · subst hps
      simp [register, he, hn, hp, JVal.truthy, het, hnt]
    · simp [register, he, hn, hp, JVal.truthy, JVal.asStr?, het, hnt, hps, hlen]
  · intro es us ps he hn hp het hnt hlen hdup
    have hps : ps ≠ "" := by
      intro h
      exact hlen (by simp [h])
    have ha : db.users.any (fun x => x.email == es) = true := by
      obtain ⟨x, hx, hxe⟩ := hdup
      exact List.any_eq_true.mpr ⟨x, hx, by simpa using hxe⟩
    simp [register, he, hn, hp, JVal.truthy, JVal.asStr?, het, hnt, hps, hlen, ha]
  · intro es us ps he hn hp het hnt hlen hno hdup
    have hps : ps ≠ "" := by
      intro h
      exact hlen (by simp [h])
    have ha : db.users.any (fun x => x.email == es) = false := by
      rw [List.any_eq_false]
      intro x hx
      simpa using hno x hx
    have hb : db.users.any (fun x => x.username == us) = true := by
      obtain ⟨x, hx, hxe⟩ := hdup
      exact List.any_eq_true.mpr ⟨x, hx, by simpa using hxe⟩
    simp [register, he, hn, hp, JVal.truthy, JVal.asStr?, het, hnt, hps, hlen,
          ha, hb]
  · intro es us ps he hn hp het hnt hlen hno hno2
    have hps : ps ≠ "" := by
      intro h
      exact hlen (by simp [h])
    have ha : db.users.any (fun x => x.email == es) = false := by
      rw [List.any_eq_false]
      intro x hx
      simpa using hno x hx
    have hb : db.users.any (fun x => x.username == us) = false := by
      rw [List.any_eq_false]
      intro x hx
      simpa using hno2 x hx
    simp [register, he, hn, hp, JVal.truthy, JVal.asStr?, het, hnt, hps, hlen,
          ha, hb]
  · intro data e herr
    rcases register_cases db data with h | ⟨es, us, ps, pi, heq, _, _⟩
    · exact h
    · rw [heq] at herr
      simp at herr
  · intro data huc
    rcases register_cases db data with h | ⟨es, us, ps, pi, heq, hne, hnu⟩
    · rw [h]
      exact huc
    · rw [heq]
      show List.Pairwise _ (db.users ++ [_])
      rw [List.pairwise_append]
      refine ⟨huc, List.pairwise_singleton _ _, ?_⟩
      intro a ha b hb
      rcases List.mem_singleton.mp hb with rfl
      exact ⟨hne a ha, hnu a ha⟩

/-- C6 witness: on the demo store, a fresh registration succeeds and
issues the token pair; re-using the taken email fails with Conflict; the
5-character password fails with Validation. -/
theorem register_spec_witness :
    register demoDB (some ⟨some (.jstr ("new@x")), some (.jstr ("newbie")),
        some (.jstr ("secret1")), none⟩) =
      ({ demoDB with
           users := demoDB.users ++
             [⟨demoDB.nextUserId, "new@x", "newbie",
               hashPassword ("secret1"), none⟩],
           nextUserId := demoDB.nextUserId + 1 },
       .ok (makeTokens demoDB.nextUserId,
            ⟨demoDB.nextUserId, "new@x", "newbie",
             hashPassword ("secret1"), none⟩)) ∧
    register demoDB (some ⟨some (.jstr ("buyer@x")), some (.jstr ("newbie")),
        some (.jstr ("secret1")), none⟩) = (demoDB, .error .conflict) ∧
    register demoDB (some ⟨some (.jstr ("new@x")), some (.jstr ("newbie")),
        some (.jstr ("abcde")), none⟩) = (demoDB, .error .validation) :=
  ⟨(register_spec demoDB ⟨some (.jstr ("new@x")), some (.jstr ("newbie")),
      some (.jstr ("secret1")), none⟩).2.2.2.2.2.1 ("new@x") "newbie" "secret1"
      rfl rfl rfl (by decide) (by decide) (by decide) (by decide) (by decide),
   (register_spec demoDB ⟨some (.jstr ("buyer@x")), some (.jstr ("newbie")),
      some (.jstr ("secret1")), none⟩).2.2.2.1 ("buyer@x") "newbie" "secret1"
      rfl rfl rfl (by decide) (by decide) (by decide) (by decide),
   (register_spec demoDB ⟨some (.jstr ("new@x")), some (.jstr ("newbie")),
      some (.jstr ("abcde")), none⟩).2.2.1 ("new@x") "newbie" "abcde"
      rfl rfl rfl (by decide) (by decide) (by decide)⟩

/-- C7: updateProfile rejects a requested username colliding with a stored
username of another user with Conflict (user record untouched), rejects a
username blank after trimming and a non-string non-null profile image with
Validation, and on success stores exactly the trimmed requested
username. -/
theorem update_profile_spec (db : DB) (uid : Nat) (u : User) (d : ProfileData)
    (hu : findUser db uid = some u) :
    (∀ s, d.username = some (.jstr s) → pyStrip s = "" →
      update_profile db uid (some d) = (db, .error .validation)) ∧
    (∀ s, d.username = some (.jstr s) → pyStrip s ≠ "" → s ≠ u.username →
      (∃ x ∈ db.users, x.username = s) →
      update_profile db uid (some d) = (db, .error .conflict)) ∧
    (∀ un v, usernameStep db u d = .ok un → d.profileImage = some v →
      v ≠ .jnull → v.asStr? = none →
      update_profile db uid (some d) = (db, .error .validation)) ∧
    (∀ s img, d.username = some (.jstr s) → pyStrip s ≠ "" →
      ¬ (s ≠ u.username ∧ ∃ x ∈ db.users, x.username = s) →
      imageStep u d = .ok img →
      update_profile db uid (some d) =
        (let u' : User := { u with username := pyStrip s, profileImage := img }
         ({ db with users := updateFirst (fun x => x.id == uid) (fun _ => u') db.users },
          .ok u'))) := by
  refine ⟨?_, ?_, ?_, ?_⟩
  · intro s hs htrim
    simp [update_profile, hu, usernameStep, JVal.asStr?, hs, htrim]
  · intro s hs htrim hne hdup
    simp [update_profile, hu, usernameStep, JVal.asStr?, hs, htrim, hne, hdup]
  · intro un v hun hv hnn hns
    rcases v with s | n | b | _
    · simp [JVal.asStr?] at hns
    · simp [update_profile, hu, hun, imageStep, hv]
    · simp [update_profile, hu, hun, imageStep, hv]
    · exact absurd rfl hnn
  · intro s img hs htrim hnc himg
    have hstep : usernameStep db u d = .ok (pyStrip s) := by
      rcases Decidable.not_and_iff_or_not.mp hnc with h | h
      · have heq : s = u.username := Decidable.not_not.mp h
        subst heq
        simp [usernameStep, JVal.asStr?, hs, htrim]
      · simp [usernameStep, JVal.asStr?, hs, htrim, h]
    simp [update_profile, hu, hstep, himg]

/-- C7 witness: on the demo store, the buyer requesting the taken name
`seller` gets Conflict with the store unchanged, and requesting a
space-padded name succeeds, storing the trimmed form. -/
theorem update_profile_spec_witness :
    update_profile demoDB 1 (some ⟨some (.jstr ("seller")), none⟩) =
      (demoDB, .error .conflict) ∧
    update_profile demoDB 1 (some ⟨some (.jstr (" buyer2 ")), none⟩) =
      (let u' : User := { demoBuyer with username := pyStrip (" buyer2 "), profileImage := none }
       ({ demoDB with users := updateFirst (fun x => x.id == 1) (fun _ => u') demoDB.users },
        .ok u')) :=
  ⟨(update_profile_spec demoDB 1 demoBuyer ⟨some (.jstr ("seller")), none⟩
      (by decide)).2.1 ("seller") rfl (by decide) (by decide) (by decide),
   (update_profile_spec demoDB 1 demoBuyer ⟨some (.jstr (" buyer2 ")), none⟩
      (by decide)).2.2.2 (" buyer2 ") none rfl (by decide) (by decide) rfl⟩

/-- C9: product listing is newest first (descending creation time) with
pagination metadata; with exactly 10 matching products, page 2 at 8 per
page holds exactly 2 items with `has_next = false` and `has_prev = true`;
category matching and the title/description search depend only on the
lower-cased filter, query and stored fields (case-insensitive). -/
theorem get_products_spec (db : DB) :
    (∀ cat q page perPage,
      (get_products db cat q page perPage).products.Pairwise
        (fun a b => b.createdAt ≤ a.createdAt)) ∧
    (∀ cat q,
      ((db.products.filter (fun p => matchesCategory p cat)).filter
          (fun p => matchesSearch p q)).length = 10 →
      (get_products db cat q 2 8).products.length = 2 ∧
      (get_products db cat q 2 8).hasNext = false ∧
      (get_products db cat q 2 8).hasPrev = true) ∧
    (∀ p c₁ c₂, c₁ ≠ "" → c₂ ≠ "" → lowerStr c₁ = lowerStr c₂ →
      matchesCategory p (some c₁) = matchesCategory p (some c₂)) ∧
    (∀ p q₁ q₂, q₁ ≠ "" → q₂ ≠ "" → lowerStr q₁ = lowerStr q₂ →
      matchesSearch p (some q₁) = matchesSearch p (some q₂)) ∧
    (∀ p₁ p₂ c, lowerStr p₁.category = lowerStr p₂.category →
      matchesCategory p₁ (some c) = matchesCategory p₂ (some c)) ∧
    (∀ p₁ p₂ q, lowerStr p₁.title = lowerStr p₂.title →
      lowerStr p₁.description = lowerStr p₂.description →
      matchesSearch p₁ (some q) = matchesSearch p₂ (some q)) := by
  refine ⟨?_, ?_, ?_, ?_, ?_, ?_⟩
  · intro cat q page perPage
    have hsorted := pairwise_sortDesc Product.createdAt
      ((db.products.filter (fun p => matchesCategory p cat)).filter
        (fun p => matchesSearch p q))
    have hsub : List.Sublist
        (get_products db cat q page perPage).products
        (sortDesc Product.createdAt
          ((db.products.filter (fun p => matchesCategory p cat)).filter
            (fun p => matchesSearch p q))) := by
      show List.Sublist (List.take _ (List.drop _ _)) _
      exact (List.take_sublist _ _).trans (List.drop_sublist _ _)
    exact hsorted.sublist hsub
  · intro cat q h
    have hlen : (sortDesc Product.createdAt
        ((db.products.filter (fun p => matchesCategory p cat)).filter
          (fun p => matchesSearch p q))).length = 10 := by
      rw [length_sortDesc]
      exact h
    refine ⟨?_, ?_, ?_⟩
    · show (List.take 8 (List.drop ((max 2 1 - 1) * 8) _)).length = 2
      rw [List.length_take, List.length_drop, hlen]
      decide
    · show decide (max 2 1 < (_ + 8 - 1) / 8) = false
      rw [hlen]
      decide
    · rfl
  · intro p c₁ c₂ h₁ h₂ hlow
    have hb₁ : (c₁ == "") = false := by simpa using h₁
    have hb₂ : (c₂ == "") = false := by simpa using h₂
    simp [matchesCategory, hb₁, hb₂, hlow]
  · intro p q₁ q₂ h₁ h₂ hlow
    have hb₁ : (q₁ == "") = false := by simpa using h₁
    have hb₂ : (q₂ == "") = false := by simpa using h₂
    simp [matchesSearch, hb₁, hb₂, hlow]
  · intro p₁ p₂ c hcat
    simp [matchesCategory, hcat]
  · intro p₁ p₂ q htitle hdesc
    simp [matchesSearch, htitle, hdesc]

/-- C9 witness: ten stored products, page 2 at 8 per page: exactly 2
items, `has_next = false`, `has_prev = true`; the returned page is sorted
newest first; `CAT` and `cat` match the same products. -/
theorem get_products_spec_witness :
    (get_products demoListDB none none 2 8).products.length = 2 ∧
    (get_products demoListDB none none 2 8).hasNext = false ∧
    (get_products demoListDB none none 2 8).hasPrev = true ∧
    matchesCategory demoProductA (some ("CAT")) =
      matchesCategory demoProductA (some ("cat")) ∧
    matchesSearch demoProductA (some ("DESC")) =
      matchesSearch demoProductA (some ("desc")) := by
  have h := (get_products_spec demoListDB).2.1 none none (by decide)
  have hc := (get_products_spec demoListDB).2.2.1 demoProductA ("CAT") "cat"
    (by decide) (by decide) (by decide)
  have hs := (get_products_spec demoListDB).2.2.2.1 demoProductA ("DESC") "desc"
    (by decide) (by decide) (by decide)
  exact ⟨h.1, h.2.1, h.2.2, hc, hs⟩

/-! ### Preservation of the data-model invariants (for C3) -/

/-- Generic preservation: invariants survive when products shrink (as a
sublist), cart rows and wishlist rows shrink (as subsets), and the product
id counter is unchanged. -/
theorem wf_of_shrink {db db' : DB}
    (hprod : List.Sublist db'.products db.products)
    (hcart : ∀ c ∈ db'.cartItems, c ∈ db.cartItems)
    (hwish : ∀ w ∈ db'.wishlist, w ∈ db.wishlist)
    (hnextp : db'.nextProductId = db.nextProductId)
    (h : Inv db ∧ Fresh db) : Inv db' ∧ Fresh db' := by
  obtain ⟨⟨i1, i2, i3, i4⟩, f1, f2, f3, f4⟩ := h
  have hpmem : ∀ p ∈ db'.products, p ∈ db.products := fun p hp => hprod.subset hp
  refine ⟨⟨?_, ?_, ?_, ?_⟩, ?_, ?_, ?_, ?_⟩
  · exact fun p hp => i1 p (hpmem p hp)
  · exact fun c hc => i2 c (hcart c hc)
  · exact fun c hc p hp hid => i3 c (hcart c hc) p (hpmem p hp) hid
  · exact fun w hw p hp hid => i4 w (hwish w hw) p (hpmem p hp) hid
  · exact fun p hp => hnextp ▸ f1 p (hpmem p hp)
  · exact List.Pairwise.sublist (List.Sublist.map Product.id hprod) f2
  · exact fun c hc => hnextp ▸ f3 c (hcart c hc)
  · exact fun w hw => hnextp ▸ f4 w (hwish w hw)

theorem wf_register (db : DB) (data : Option RegisterData)
    (h : Inv db ∧ Fresh db) :
    Inv (register db data).1 ∧ Fresh (register db data).1 := by
  rcases register_cases db data with heq | ⟨es, us, ps, pi, heq, _, _⟩
  · rw [heq]
    exact h
  · rw [heq]
    exact h

theorem wf_update_profile (db : DB) (uid : Nat) (data : Option ProfileData)
    (h : Inv db ∧ Fresh db) :
    Inv (update_profile db uid data).1 ∧ Fresh (update_profile db uid data).1 := by
  unfold update_profile
  split
  · exact h
  · split
    · exact h
    · split
      · exact h
      · split
        · exact h
        · exact h

theorem wf_remove_from_cart (db : DB) (uid pid : Nat)
    (h : Inv db ∧ Fresh db) :
    Inv (remove_from_cart db uid pid).1 ∧ Fresh (remove_from_cart db uid pid).1 := by
  unfold remove_from_cart
  split
  · exact h
  · split
    · exact h
    · dsimp only
      refine wf_of_shrink ?_ ?_ ?_ ?_ h
      · exact List.Sublist.refl db.products
      · exact fun c hc => mem_removeFirst hc
      · exact fun w hw => hw
      · rfl

theorem wf_checkout (db : DB) (uid : Nat) (h : Inv db ∧ Fresh db) :
    Inv (checkout db uid).1 ∧ Fresh (checkout db uid).1 := by
  unfold checkout
  split
  · exact h
  · dsimp only
    split
    · exact h
    · split
      · exact h
      · dsimp only
        refine wf_of_shrink ?_ ?_ ?_ ?_ h
        · exact List.Sublist.refl db.products
        · exact fun c hc => List.mem_of_mem_filter hc
        · exact fun w hw => hw
        · rfl

theorem wf_remove_from_wishlist (db : DB) (uid pid : Nat)
    (h : Inv db ∧ Fresh db) :
    Inv (remove_from_wishlist db uid pid).1 ∧
      Fresh (remove_from_wishlist db uid pid).1 := by
  unfold remove_from_wishlist
  split
  · exact h
  · split
    · exact h
    · split
      · exact h
      · dsimp only
        refine wf_of_shrink ?_ ?_ ?_ ?_ h
        · exact List.Sublist.refl db.products
        · exact fun c hc => hc
        · exact fun w hw => mem_removeFirst hw
        · rfl

theorem wf_delete_product (db : DB) (uid pid : Nat) (h : Inv db ∧ Fresh db) :
    Inv (delete_product db uid pid).1 ∧ Fresh (delete_product db uid pid).1 := by
  unfold delete_product
  split
  · exact h
  · split
    · exact h
    · dsimp only
      refine wf_of_shrink ?_ ?_ ?_ ?_ h
      · exact removeFirst_sublist (fun q => q.id == pid) db.products
      · exact fun c hc => hc
      · exact fun w hw => List.mem_of_mem_filter hw
      · rfl

theorem wf_create_product (db : DB) (uid : Nat) (m : Bool) (form : ProductForm)
    (h : Inv db ∧ Fresh db) :
    Inv (create_product db uid m form).1 ∧
      Fresh (create_product db uid m form).1 := by
  unfold create_product
  split
  · exact h
  · split
    · exact h
    · rcases ht : form.title with _ | t <;>
        rcases hd : form.description with _ | d <;>
        rcases hc : form.category with _ | c <;>
        rcases hpr : form.price with _ | pr <;>
        simp only [ht, hd, hc, hpr] <;>
        try exact h
      split
      · exact h
      · split
        next => exact h
        next hple =>
          dsimp only
          obtain ⟨⟨i1, i2, i3, i4⟩, f1, f2, f3, f4⟩ := h
          refine ⟨⟨?_, ?_, ?_, ?_⟩, ?_, ?_, ?_, ?_⟩
          · intro p hp
            rcases List.mem_append.mp hp with h' | h'
            · exact i1 p h'
            · rcases List.mem_singleton.mp h' with rfl
              exact lt_of_not_le hple
          · exact i2
          · intro cc hcc p hp hid
            rcases List.mem_append.mp hp with h' | h'
            · exact i3 cc hcc p h' hid
            · rcases List.mem_singleton.mp h' with rfl
              have hlt := f3 cc hcc
              simp only at hid
              omega
          · intro w hw p hp hid
            rcases List.mem_append.mp hp with h' | h'
            · exact i4 w hw p h' hid
            · rcases List.mem_singleton.mp h' with rfl
              have hlt := f4 w hw
              simp only at hid
              omega
          · intro p hp
            rcases List.mem_append.mp hp with h' | h'
            · exact Nat.lt_trans (f1 p h') (Nat.lt_succ_self _)
            · rcases List.mem_singleton.mp h' with rfl
              exact Nat.lt_succ_self _
          · rw [List.map_append, List.pairwise_append]
            refine ⟨f2, List.pairwise_singleton _ _, ?_⟩
            intro a ha b hb
            rcases List.mem_singleton.mp hb with rfl
            obtain ⟨p, hpmem, rfl⟩ := List.mem_map.mp ha
            have := f1 p hpmem
            simp only [List.map_cons]
            omega
          · intro cc hcc
            exact Nat.lt_trans (f3 cc hcc) (Nat.lt_succ_self _)
          · intro w hw
            exact Nat.lt_trans (f4 w hw) (Nat.lt_succ_self _)

theorem wf_update_product (db : DB) (uid pid : Nat) (m : Bool)
    (f : ProductUpdateForm) (h : Inv db ∧ Fresh db) :
    Inv (update_product db uid pid m f).1 ∧
      Fresh (update_product db uid pid m f).1 := by
  unfold update_product
  split
  · exact h
  next p hfp =>
    split
    · exact h
    · split
      · exact h
      · dsimp only
        split
        · exact h
        next pr hpr =>
          dsimp only
          obtain ⟨⟨i1, i2, i3, i4⟩, f1, f2, f3, f4⟩ := h
          have hfp' : List.find? (fun q => q.id == pid) db.products = some p := hfp
          have hpmem : p ∈ db.products := List.mem_of_find?_eq_some hfp'
          have hpid : p.id = pid := by simpa using List.find?_some hfp'
          have hprpos : 0 < pr := by
            by_cases hp1 : f.priceProvided
            · rw [if_pos hp1] at hpr
              rcases hp2 : f.price with _ | pr0
              · simp [hp2] at hpr
              · simp only [hp2] at hpr
                by_cases hp3 : pr0 ≤ 0
                · rw [if_pos hp3] at hpr
                  simp at hpr
                · rw [if_neg hp3] at hpr
                  obtain rfl : pr0 = pr := by simpa using hpr
                  exact lt_of_not_le hp3
            · rw [if_neg hp1] at hpr
              obtain rfl : p.price = pr := by simpa using hpr
              exact i1 p hpmem
          refine ⟨⟨?_, ?_, ?_, ?_⟩, ?_, ?_, ?_, ?_⟩
          · intro x hx
            rcases mem_updateFirst_of_find? hfp' x hx with h' | h'
            · exact i1 x h'
            · rw [h']
              exact hprpos
          · exact i2
          · intro cc hcc x hx hid
            rcases mem_updateFirst_of_find? hfp' x hx with h' | h'
            · exact i3 cc hcc x h' hid
            · rw [h'] at hid ⊢
              exact i3 cc hcc p hpmem hid
          · intro w hw x hx hid
            rcases mem_updateFirst_of_find? hfp' x hx with h' | h'
            · exact i4 w hw x h' hid
            · rw [h'] at hid ⊢
              exact i4 w hw p hpmem hid
          · intro x hx
            rcases mem_updateFirst_of_find? hfp' x hx with h' | h'
            · exact f1 x h'
            · rw [h']
              exact f1 p hpmem
          · have hmap : (updateFirst (fun q => q.id == pid)
                (fun _ => ({ p with
                    title := match f.title with | some s => pyStrip s | none => p.title,
                    description := match f.description with | some s => pyStrip s | none => p.description,
                    category := match f.category with | some s => pyStrip s | none => p.category,
                    price := pr,
                    imageFilenames := f.keepFilenames ++ f.newImages } : Product))
                db.products).map Product.id = db.products.map Product.id := by
              apply map_key_updateFirst
              intro a ha
              have ha2 : a.id = pid := by simpa using ha
              show p.id = a.id
              rw [hpid, ha2]
            rw [hmap]
            exact f2
          · exact f3
          · exact f4

theorem wf_add_to_cart (db : DB) (uid pid : Nat) (qty : Int)
    (h : Inv db ∧ Fresh db) :
    Inv (add_to_cart db uid pid qty).1 ∧ Fresh (add_to_cart db uid pid qty).1 := by
  unfold add_to_cart
  split
  · exact h
  · split
    · exact h
    next hq =>
      split
      · exact h
      next product hfp =>
        split
        · exact h
        next hsb =>
          have hfp' : List.find? (fun q => q.id == pid) db.products =
              some product := hfp
          have hpmem : product ∈ db.products := List.mem_of_find?_eq_some hfp'
          have hpid : product.id = pid := by simpa using List.find?_some hfp'
          have hsne : product.sellerId ≠ uid := by simpa using hsb
          obtain ⟨⟨i1, i2, i3, i4⟩, f1, f2, f3, f4⟩ := h
          split
          next ci hfc =>
            dsimp only
            have hfc' : List.find?
                (fun c => c.userId == uid && c.productId == pid) db.cartItems =
                some ci := hfc
            have hcimem : ci ∈ db.cartItems := List.mem_of_find?_eq_some hfc'
            refine ⟨⟨i1, ?_, ?_, i4⟩, f1, f2, ?_, f4⟩
            · intro x hx
              rcases mem_updateFirst_of_find? hfc' x hx with h' | h'
              · exact i2 x h'
              · rw [h']
                have := i2 ci hcimem
                show 1 ≤ ci.quantity + qty
                omega
            · intro cc hcc p hp hid
              rcases mem_updateFirst_of_find? hfc' cc hcc with h' | h'
              · exact i3 cc h' p hp hid
              · rw [h'] at hid ⊢
                exact i3 ci hcimem p hp hid
            · intro cc hcc
              rcases mem_updateFirst_of_find? hfc' cc hcc with h' | h'
              · exact f3 cc h'
              · rw [h']
                exact f3 ci hcimem
          next hfc =>
            dsimp only
            refine ⟨⟨i1, ?_, ?_, i4⟩, f1, f2, ?_, f4⟩
            · intro x hx
              rcases List.mem_append.mp hx with h' | h'
              · exact i2 x h'
              · rcases List.mem_singleton.mp h' with rfl
                show 1 ≤ qty
                omega
            · intro cc hcc p hp hid
              rcases List.mem_append.mp hcc with h' | h'
              · exact i3 cc h' p hp hid
              · rcases List.mem_singleton.mp h' with rfl
                obtain rfl : p = product :=
                  eq_of_mem_of_ids_pairwise f2 hp hpmem (by rw [hpid]; exact hid)
                exact hsne
            · intro cc hcc
              rcases List.mem_append.mp hcc with h' | h'
              · exact f3 cc h'
              · rcases List.mem_singleton.mp h' with rfl
                show pid < db.nextProductId
                rw [← hpid]
                exact f1 product hpmem

theorem wf_update_cart_item (db : DB) (uid pid : Nat) (qty : Int)
    (h : Inv db ∧ Fresh db) :
    Inv (update_cart_item_quantity db uid pid qty).1 ∧
      Fresh (update_cart_item_quantity db uid pid qty).1 := by
  unfold update_cart_item_quantity
  split
  · exact h
  · split
    · exact h
    next ci hfc =>
      split
      next hq =>
        dsimp only
        refine wf_of_shrink ?_ ?_ ?_ ?_ h
        · exact List.Sublist.refl db.products
        · exact fun c hc => mem_removeFirst hc
        · exact fun w hw => hw
        · rfl
      next hq =>
        dsimp only
        obtain ⟨⟨i1, i2, i3, i4⟩, f1, f2, f3, f4⟩ := h
        have hfc' : List.find?
            (fun c => c.userId == uid && c.productId == pid) db.cartItems =
            some ci := hfc
        have hcimem : ci ∈ db.cartItems := List.mem_of_find?_eq_some hfc'
        refine ⟨⟨i1, ?_, ?_, i4⟩, f1, f2, ?_, f4⟩
        · intro x hx
          rcases mem_updateFirst_of_find? hfc' x hx with h' | h'
          · exact i2 x h'
          · rw [h']
            show 1 ≤ qty
            omega
        · intro cc hcc p hp hid
          rcases mem_updateFirst_of_find? hfc' cc hcc with h' | h'
          · exact i3 cc h' p hp hid
          · rw [h'] at hid ⊢
            exact i3 ci hcimem p hp hid
        · intro cc hcc
          rcases mem_updateFirst_of_find? hfc' cc hcc with h' | h'
          · exact f3 cc h'
          · rw [h']
            exact f3 ci hcimem

theorem wf_add_to_wishlist (db : DB) (uid pid : Nat)
    (h : Inv db ∧ Fresh db) :
    Inv (add_to_wishlist db uid pid).1 ∧ Fresh (add_to_wishlist db uid pid).1 := by
  unfold add_to_wishlist
  split
  · exact h
  · split
    · exact h
    next product hfp =>
      split
      · exact h
      · split
        · exact h
        next hsb =>
          dsimp only
          obtain ⟨⟨i1, i2, i3, i4⟩, f1, f2, f3, f4⟩ := h
          have hfp' : List.find? (fun q => q.id == pid) db.products =
              some product := hfp
          have hpmem : product ∈ db.products := List.mem_of_find?_eq_some hfp'
          have hpid : product.id = pid := by simpa using List.find?_some hfp'
          have hsne : product.sellerId ≠ uid := by simpa using hsb
          refine ⟨⟨i1, i2, i3, ?_⟩, f1, f2, f3, ?_⟩
          · intro w hw p hp hid
            rcases List.mem_append.mp hw with h' | h'
            · exact i4 w h' p hp hid
            · rcases List.mem_singleton.mp h' with rfl
              obtain rfl : p = product :=
                eq_of_mem_of_ids_pairwise f2 hp hpmem (by rw [hpid]; exact hid)
              exact hsne
          · intro w hw
            rcases List.mem_append.mp hw with h' | h'
            · exact f4 w h'
            · rcases List.mem_singleton.mp h' with rfl
              show pid < db.nextProductId
              rw [← hpid]
              exact f1 product hpmem

theorem wf_applyOp (db : DB) (op : Op) (h : Inv db ∧ Fresh db) :
    Inv (applyOp db op) ∧ Fresh (applyOp db op) := by
  cases op with
  | opRegister d => exact wf_register db d h
  | opUpdateProfile uid d => exact wf_update_profile db uid d h
  | opCreateProduct uid m f => exact wf_create_product db uid m f h
  | opUpdateProduct uid pid m f => exact wf_update_product db uid pid m f h
  | opDeleteProduct uid pid => exact wf_delete_product db uid pid h
  | opAddToCart uid pid q => exact wf_add_to_cart db uid pid q h
  | opUpdateCartItem uid pid q => exact wf_update_cart_item db uid pid q h
  | opRemoveFromCart uid pid => exact wf_remove_from_cart db uid pid h
  | opCheckout uid => exact wf_checkout db uid h
  | opWishlistAdd uid pid => exact wf_add_to_wishlist db uid pid h
  | opWishlistRemove uid pid => exact wf_remove_from_wishlist db uid pid h

theorem wf_init : Inv initDB ∧ Fresh initDB := by
  constructor
  · refine ⟨?_, ?_, ?_, ?_⟩ <;> simp [initDB]
  · refine ⟨?_, ?_, ?_, ?_⟩ <;> simp [initDB]

/-- C3: in every state reachable from the fresh store by running routes,
every stored Product has a positive price, every CartItem has quantity at
least 1, and no user holds their own product in their cart or wishlist —
i.e. the data-model invariants are preserved by every operation. -/
theorem reachable_inv_spec (db : DB) (h : Reachable db) : Inv db := by
  have hwf : Inv db ∧ Fresh db := by
    induction h with
    | init => exact wf_init
    | step db0 op h0 ih => exact wf_applyOp db0 op ih
  exact hwf.1

/-- C3 witness: the state reached from the fresh store by one successful
registration satisfies the invariants. -/
theorem reachable_inv_spec_witness :
    Inv (applyOp initDB (Op.opRegister (some ⟨some (.jstr ("a@x")),
      some (.jstr ("alice")), some (.jstr ("secret1")), none⟩))) :=
  reachable_inv_spec _ (Reachable.step _ _ Reachable.init)

end Marketplace
